import Mathlib

/-!
Formal model of the pluggable data-writer framework of
`src/dlt/common/data_writers/writers.py`: the writer registry
(`ALL_WRITERS`, `NATIVE_FORMAT_WRITERS`, `class_factory`), the resolver
(`resolve_best_writer_spec`, `get_best_writer_spec`) and the concrete
writers (jsonl, typed-jsonl, insert-values, parquet, csv, the arrow
writers and the `ArrowToObjectAdapter` mixin).

Python exceptions are modelled as `Except PyErr`; a raised exception is
an `.error` result. Output sinks are modelled as the list of strings
passed to `self._f.write` (file content is their concatenation).
-/

set_option autoImplicit false

namespace DltWriters

/-- Source `TDataItemFormat = Literal["arrow", "object"]`. -/
inductive TDataItemFormat where
  | arrow
  | object
  deriving DecidableEq, Repr

/-- The loader file formats used by the writers in
`src/dlt/common/data_writers/writers.py` (the `TLoaderFileFormat`
literal values appearing in the writer specs). -/
inductive TLoaderFileFormat where
  | jsonl
  | typed_jsonl
  | insert_values
  | parquet
  | csv
  deriving DecidableEq, Repr

/-- Source `FileWriterSpec` NamedTuple: capability descriptor of one writer. -/
structure FileWriterSpec where
  file_format : TLoaderFileFormat
  data_item_format : TDataItemFormat
  file_extension : String
  is_binary_format : Bool
  supports_schema_changes : String
  requires_destination_capabilities : Bool := false
  supports_compression : Bool := false
  deriving DecidableEq, Repr

/-- Python exceptions raised by this subsystem (each `.error e` models a
raised exception of the given kind). `schemaRequired` covers the
no-schema failures: `InsertValuesWriter.write_header` raises
`AssertionError("column schema required")` and
`ParquetDataWriter.write_header` fails on `None.items()`; the spec names
both `SchemaRequired`. -/
inductive PyErr where
  | valueError
  | specLookupFailed
  | fileFormatNotFound
  | schemaRequired
  | assertionError
  | keyError (k : String)
  | typeError
  | attributeError
  | invalidDataItem
  | notImplementedError
  deriving DecidableEq, Repr

/-- The ten concrete writer classes of `writers.py`. -/
inductive WriterType where
  | jsonlWriter
  | typedJsonlListWriter
  | insertValuesWriter
  | parquetDataWriter
  | csvWriter
  | arrowToParquetWriter
  | arrowToInsertValuesWriter
  | arrowToJsonlWriter
  | arrowToTypedJsonlListWriter
  | arrowToCsvWriter
  deriving DecidableEq, Repr

/-- Source `JsonlWriter.writer_spec()`. -/
def jsonlWriterSpec : FileWriterSpec :=
  { file_format := .jsonl, data_item_format := .object, file_extension := "jsonl",
    is_binary_format := true, supports_schema_changes := "True",
    supports_compression := true }

/-- Source `TypedJsonlListWriter.writer_spec()`. -/
def typedJsonlListWriterSpec : FileWriterSpec :=
  { file_format := .typed_jsonl, data_item_format := .object, file_extension := "typed-jsonl",
    is_binary_format := true, supports_schema_changes := "True",
    supports_compression := true }

/-- Source `InsertValuesWriter.writer_spec()`. -/
def insertValuesWriterSpec : FileWriterSpec :=
  { file_format := .insert_values, data_item_format := .object,
    file_extension := "insert_values", is_binary_format := false,
    supports_schema_changes := "Buffer", supports_compression := true,
    requires_destination_capabilities := true }

/-- Source `ParquetDataWriter.writer_spec()`. -/
def parquetDataWriterSpec : FileWriterSpec :=
  { file_format := .parquet, data_item_format := .object, file_extension := "parquet",
    is_binary_format := true, supports_schema_changes := "Buffer",
    requires_destination_capabilities := true, supports_compression := false }

/-- Source `CsvWriter.writer_spec()`. -/
def csvWriterSpec : FileWriterSpec :=
  { file_format := .csv, data_item_format := .object, file_extension := "csv",
    is_binary_format := false, supports_schema_changes := "False",
    requires_destination_capabilities := false, supports_compression := true }

/-- Source `ArrowToParquetWriter.writer_spec()`. -/
def arrowToParquetWriterSpec : FileWriterSpec :=
  { file_format := .parquet, data_item_format := .arrow, file_extension := "parquet",
    is_binary_format := true, supports_schema_changes := "False",
    requires_destination_capabilities := false, supports_compression := false }

/-- Source `ArrowToCsvWriter.writer_spec()`. -/
def arrowToCsvWriterSpec : FileWriterSpec :=
  { file_format := .csv, data_item_format := .arrow, file_extension := "csv",
    is_binary_format := true, supports_schema_changes := "False",
    requires_destination_capabilities := false, supports_compression := true }

/-- Source `ArrowToObjectAdapter.convert_spec(base)`: the wrapped writer's spec
with `data_item_format` replaced by `"arrow"` (`spec._replace(...)`).
Takes the base writer's spec (the source takes the base class and calls
its `writer_spec()`). -/
def convert_spec (base : FileWriterSpec) : FileWriterSpec :=
  { base with data_item_format := .arrow }

/-- Source `writer_spec()` classmethod of each writer class; the three adapter
subclasses return `cls.convert_spec(Base)`. -/
def writer_spec : WriterType → FileWriterSpec
  | .jsonlWriter => jsonlWriterSpec
  | .typedJsonlListWriter => typedJsonlListWriterSpec
  | .insertValuesWriter => insertValuesWriterSpec
  | .parquetDataWriter => parquetDataWriterSpec
  | .csvWriter => csvWriterSpec
  | .arrowToParquetWriter => arrowToParquetWriterSpec
  | .arrowToInsertValuesWriter => convert_spec insertValuesWriterSpec
  | .arrowToJsonlWriter => convert_spec jsonlWriterSpec
  | .arrowToTypedJsonlListWriter => convert_spec typedJsonlListWriterSpec
  | .arrowToCsvWriter => convert_spec arrowToCsvWriterSpec

/-- Source `is_native_writer`: true unless the class is a subclass of
`ArrowToObjectAdapter` (only the three adapter writers are). -/
def is_native_writer : WriterType → Bool
  | .arrowToInsertValuesWriter => false
  | .arrowToJsonlWriter => false
  | .arrowToTypedJsonlListWriter => false
  | _ => true

/-- Source `ALL_WRITERS` in source order. -/
def ALL_WRITERS : List WriterType :=
  [.jsonlWriter, .typedJsonlListWriter, .insertValuesWriter, .parquetDataWriter,
   .csvWriter, .arrowToParquetWriter, .arrowToInsertValuesWriter, .arrowToJsonlWriter,
   .arrowToTypedJsonlListWriter, .arrowToCsvWriter]

/-- Source `NATIVE_FORMAT_WRITERS[item_format]`: native writers for the item
format, in `ALL_WRITERS` order. -/
def NATIVE_FORMAT_WRITERS (item_format : TDataItemFormat) : List WriterType :=
  ALL_WRITERS.filter fun w =>
    (writer_spec w).data_item_format == item_format && is_native_writer w

/-- Source `DataWriter.class_factory`: first writer in `writers` whose spec
matches both formats; `none` models the raised
`FileFormatForItemFormatNotFound` (a `DataWriterNotFound`). -/
def class_factory (file_format : TLoaderFileFormat) (data_item_format : TDataItemFormat)
    (writers : List WriterType) : Option WriterType :=
  writers.find? fun w =>
    (writer_spec w).file_format == file_format &&
      (writer_spec w).data_item_format == data_item_format

/-- Source `get_best_writer_spec`: native registry first, then the full one;
`.error` models the `DataWriterNotFound` escaping the second lookup. -/
def get_best_writer_spec (item_format : TDataItemFormat) (file_format : TLoaderFileFormat) :
    Except PyErr FileWriterSpec :=
  match class_factory file_format item_format (NATIVE_FORMAT_WRITERS item_format) with
  | some w => .ok (writer_spec w)
  | none =>
    match class_factory file_format item_format ALL_WRITERS with
    | some w => .ok (writer_spec w)
    | none => .error .fileFormatNotFound

/-- One candidate-scanning loop of `resolve_best_writer_spec`
(`for supported_format in possible_file_formats: if supported_format !=
preferred_format: try ... except DataWriterNotFound: pass`). -/
def scan_formats (possible : List TLoaderFileFormat) (preferred : Option TLoaderFileFormat)
    (item_format : TDataItemFormat) (writers : List WriterType) : Option FileWriterSpec :=
  match possible with
  | [] => none
  | f :: rest =>
    if some f ≠ preferred then
      match class_factory f item_format writers with
      | some w => some (writer_spec w)
      | none => scan_formats rest preferred item_format writers
    else scan_formats rest preferred item_format writers

/-- The part of `resolve_best_writer_spec` after the preferred-format
native attempt: native candidate scan, then the preferred format over
all writers, then the candidate scan over all writers, then
`SpecLookupFailed`. -/
def resolveTail (item_format : TDataItemFormat) (possible : List TLoaderFileFormat)
    (preferred : Option TLoaderFileFormat) (native allw : List WriterType) :
    Except PyErr FileWriterSpec :=
  match scan_formats possible preferred item_format native with
  | some spec => .ok spec
  | none =>
    match preferred.bind (fun p => class_factory p item_format allw) with
    | some w => .ok (writer_spec w)
    | none =>
      match scan_formats possible preferred item_format allw with
      | some spec => .ok spec
      | none => .error .specLookupFailed

/-- Source `resolve_best_writer_spec`, generalized over the two writer lists it
reads (`NATIVE_FORMAT_WRITERS[item_format]` and `ALL_WRITERS` in the
source). If a preferred format is given and absent from
`possible_file_formats` a `ValueError` is raised; otherwise a native
writer for the preferred format is tried first. -/
def resolve_best_writer_spec_over (item_format : TDataItemFormat)
    (possible : List TLoaderFileFormat) (preferred : Option TLoaderFileFormat)
    (native allw : List WriterType) : Except PyErr FileWriterSpec :=
  match preferred with
  | some p =>
    if possible.contains p then
      match class_factory p item_format native with
      | some w => .ok (writer_spec w)
      | none => resolveTail item_format possible preferred native allw
    else .error .valueError
  | none => resolveTail item_format possible preferred native allw

/-- Source `resolve_best_writer_spec(item_format, possible_file_formats,
preferred_format)`. -/
def resolve_best_writer_spec (item_format : TDataItemFormat)
    (possible : List TLoaderFileFormat) (preferred : Option TLoaderFileFormat) :
    Except PyErr FileWriterSpec :=
  resolve_best_writer_spec_over item_format possible preferred
    (NATIVE_FORMAT_WRITERS item_format) ALL_WRITERS

/-- The four-tier search the spec describes: (1) native writer for the
preferred format, (2) native writer for remaining candidates in order,
(3) any writer for the preferred format, (4) any writer for remaining
candidates in order; each tier short-circuits on first success. -/
def fourTierSearch (item_format : TDataItemFormat) (possible : List TLoaderFileFormat)
    (preferred : Option TLoaderFileFormat) : Option FileWriterSpec :=
  match preferred.bind
      (fun p => (class_factory p item_format (NATIVE_FORMAT_WRITERS item_format)).map
        writer_spec) with
  | some s => some s
  | none =>
    match scan_formats possible preferred item_format (NATIVE_FORMAT_WRITERS item_format) with
    | some s => some s
    | none =>
      match preferred.bind (fun p => (class_factory p item_format ALL_WRITERS).map
          writer_spec) with
      | some s => some s
      | none => scan_formats possible preferred item_format ALL_WRITERS

/-- One column entry of `TTableSchemaColumns` (the fields the writers
read: `data_type` and the optional `nullable`). -/
structure TColumnSchema where
  data_type : String
  nullable : Option Bool := none
  deriving DecidableEq, Repr

/-- Source `TTableSchemaColumns`: ordered mapping column name to column schema
(a Python dict, so keys are unique; order is insertion order). -/
def TTableSchemaColumns := List (String × TColumnSchema)

/-- Source `caps.insert_values_writer_type` literal values. -/
inductive TInsertDialect where
  | default
  | select_union
  deriving DecidableEq, Repr

/-- The destination capabilities the `InsertValuesWriter` reads, over a
row-value type ρ: the dialect tag and the two escaping functions. -/
structure InsertCaps (ρ : Type) where
  writer_type : TInsertDialect
  escape_identifier : String → String
  escape_literal : ρ → String

/-- Source `self.pre` chosen in `InsertValuesWriter.__init__`. -/
def insertPre {ρ : Type} (caps : InsertCaps ρ) : String :=
  match caps.writer_type with
  | .default => "("
  | .select_union => "SELECT "

/-- Source `self.post` chosen in `InsertValuesWriter.__init__`. -/
def insertPost {ρ : Type} (caps : InsertCaps ρ) : String :=
  match caps.writer_type with
  | .default => ")"
  | .select_union => ""

/-- Source `self.sep` chosen in `InsertValuesWriter.__init__`. -/
def insertSep {ρ : Type} (caps : InsertCaps ρ) : String :=
  match caps.writer_type with
  | .default => ",\n"
  | .select_union => " UNION ALL\n"

/-- Mutable state of an `InsertValuesWriter`: the item counter and chunk
counter, `self._headers_lookup` (kept as the ordered header-name list;
the source stores the dict name to index built from it) and the sink
content as the list of written strings. -/
structure InsertState where
  items_count : Nat
  chunks_written : Nat
  headers_lookup : Option (List String)
  out : List String
  deriving DecidableEq, Repr

/-- Fresh `InsertValuesWriter` state. -/
def insertInit : InsertState := ⟨0, 0, none, []⟩

/-- Index of a header name in `self._headers_lookup`
(`{v: i for i, v in enumerate(headers)}`: on duplicate names the dict
keeps the last index, hence the right-biased recursion); `none` models
the dict `KeyError`. -/
def headerIndexAux : List String → String → Nat → Option Nat
  | [], _, _ => none
  | h :: t, n, i =>
    match headerIndexAux t n (i + 1) with
    | some j => some j
    | none => if h = n then some i else none

/-- Lookup in the header dict starting at index 0. -/
def headerIndex (headers : List String) (n : String) : Option Nat :=
  headerIndexAux headers n 0

/-- The loop of the nested `write_row`: for each row item overwrite the
slot at the header index of its key with the escaped literal; a key
absent from the headers raises `KeyError`. -/
def insertRowFold {ρ : Type} (caps : InsertCaps ρ) (headers : List String)
    (row : List (String × ρ)) (acc : List String) : Except PyErr (List String) :=
  row.foldlM
    (fun (out : List String) (p : String × ρ) =>
      match headerIndex headers p.1 with
      | none => .error (.keyError p.1)
      | some i => .ok (out.set i (caps.escape_literal p.2)))
    acc

/-- The cell list built by the nested `write_row`: start from
`["NULL"] * len(self._headers_lookup)`, then run the overwrite loop. -/
def insertWriteRow {ρ : Type} (caps : InsertCaps ρ) (headers : List String)
    (row : List (String × ρ)) : Except PyErr (List String) :=
  insertRowFold caps headers row (List.replicate headers.length "NULL")

/-- Source `InsertValuesWriter.write_header`: asserts no chunk was written yet
and that a schema is present, stores the header lookup and writes the
templated `INSERT INTO {}(...)` line (and `VALUES` in the default
dialect). -/
def insertWriteHeader {ρ : Type} (caps : InsertCaps ρ)
    (columns_schema : Option TTableSchemaColumns) (st : InsertState) :
    Except PyErr InsertState :=
  if st.chunks_written ≠ 0 then .error .assertionError
  else
    match columns_schema with
    | none => .error .schemaRequired
    | some cols =>
      let headers := cols.map (·.1)
      .ok { st with
        headers_lookup := some headers,
        out := st.out ++
          ["INSERT INTO \x7b\x7d(",
           String.intercalate "," (headers.map caps.escape_identifier), ")\n"] ++
          (if caps.writer_type = .default then ["VALUES\n"] else []) }

/-- Source `InsertValuesWriter.write_data`: bumps `items_count` by the row
count (the `super()` call), returns at once on an empty batch, else
writes a chunk: a leading separator when a previous chunk exists, then
the rows joined by the separator (`rows[:-1]` each followed by the
separator, the last row bare), and bumps `_chunks_written`. Using the
header lookup before `write_header` raises (`len(None)` is a
`TypeError`). -/
def insertWriteData {ρ : Type} (caps : InsertCaps ρ) (rows : List (List (String × ρ)))
    (st : InsertState) : Except PyErr InsertState :=
  let st := { st with items_count := st.items_count + rows.length }
  if rows.isEmpty then .ok st
  else
    match st.headers_lookup with
    | none => .error .typeError
    | some headers => do
      let cells ← rows.mapM (insertWriteRow caps headers)
      let pieces := List.intersperse (insertSep caps)
        (cells.map fun out => insertPre caps ++ String.intercalate "," out ++ insertPost caps)
      .ok { st with
        out := st.out ++ (if st.chunks_written > 0 then [insertSep caps] else []) ++ pieces,
        chunks_written := st.chunks_written + 1 }

/-- Source `InsertValuesWriter.write_footer`: a single `;` only if at least one
chunk was written. -/
def insertWriteFooter (st : InsertState) : InsertState :=
  if st.chunks_written > 0 then { st with out := st.out ++ [";"] } else st

/-- Source `write_header` then a `write_data` call per batch, from a fresh
writer (no footer). -/
def insertRunBody {ρ : Type} (caps : InsertCaps ρ) (cols : Option TTableSchemaColumns)
    (batches : List (List (List (String × ρ)))) : Except PyErr InsertState := do
  let st ← insertWriteHeader caps cols insertInit
  batches.foldlM (fun s b => insertWriteData caps b s) st

/-- State of a `JsonlWriter` (and of the `TypedJsonlListWriter`): item
counter and sink content. -/
structure JsonlState where
  items_count : Nat
  out : List String
  deriving DecidableEq, Repr

/-- The write calls of `JsonlWriter.write_data`'s loop: `json.dump(row)`
then a newline, per row. `dump` models `json.dump`'s encoding of one
row. -/
def jsonlPieces {ρ : Type} (dump : ρ → String) : List ρ → List String
  | [] => []
  | r :: rest => dump r :: "\n" :: jsonlPieces dump rest

/-- Source `JsonlWriter.write_data`: `super()` bumps the counter by the row
count, then each row is dumped on its own line. -/
def jsonlWriteData {ρ : Type} (dump : ρ → String) (rows : List ρ) (st : JsonlState) :
    JsonlState :=
  { items_count := st.items_count + rows.length, out := st.out ++ jsonlPieces dump rows }

/-- Source `DataWriter.write_header` is `pass` for the jsonl writers. -/
def jsonlWriteHeader (columns_schema : Option TTableSchemaColumns) (st : JsonlState) :
    JsonlState :=
  let _ := columns_schema
  st

/-- Modelled from the spec: `json.typed_dump` of `dlt.common.json` (not
under `src/`) serializes the whole batch as a single JSON array using a
type-preserving encoding; `dump` stands for the per-row encoding. -/
def typed_dump {ρ : Type} (dump : ρ → String) (rows : List ρ) : String :=
  "[" ++ String.intercalate "," (rows.map dump) ++ "]"

/-- Source `TypedJsonlListWriter.write_data`: skips `JsonlWriter` in the
`super()` call (so only the counter bump), then unconditionally writes
the whole batch as one JSON array line. -/
def typedJsonlWriteData {ρ : Type} (dump : ρ → String) (rows : List ρ) (st : JsonlState) :
    JsonlState :=
  { items_count := st.items_count + rows.length,
    out := st.out ++ [typed_dump dump rows, "\n"] }

/-- Source `TypedJsonlListWriter` inherits `write_header` (`pass`). -/
def typedJsonlWriteHeader (columns_schema : Option TTableSchemaColumns) (st : JsonlState) :
    JsonlState :=
  let _ := columns_schema
  st

/-- First value bound to a key in an assoc-list row (`row.get(key)`;
`none` models a missing key). -/
def rowGet {ρ : Type} (k : String) (row : List (String × ρ)) : Option ρ :=
  (row.find? fun p => p.1 = k).map (·.2)

/-- Source `row[key] = v` on an existing key: replace the value bound to `k`. -/
def rowSet {ρ : Type} (k : String) (v : ρ) (row : List (String × ρ)) :
    List (String × ρ) :=
  row.map fun p => if p.1 = k then (k, v) else p

/-- State of a `CsvWriter`: item counter, `self.writer` (kept as the
fieldname list of the constructed `csv.DictWriter`, `none` before
`write_header`), the two index lists (attributes that exist only after
`write_header`, hence `Option`), and the rows handed to
`writer.writerows` (the csv encoding itself is the stdlib's). -/
structure CsvState (ρ : Type) where
  items_count : Nat
  writer : Option (List String)
  complex_indices : Option (List String)
  bytes_indices : Option (List String)
  written : List (List (String × ρ))

/-- Source `CsvWriter.write_header`: builds the `DictWriter` over the schema's
column names and records the complex and binary column names. (The
header row emitted by `writeheader()` is csv-encoded by the stdlib and
not tracked here.) -/
def csvWriteHeader {ρ : Type} (cols : TTableSchemaColumns) (st : CsvState ρ) : CsvState ρ :=
  { st with
    writer := some (cols.map (·.1)),
    complex_indices := some ((cols.filter fun p => p.2.data_type = "complex").map (·.1)),
    bytes_indices := some ((cols.filter fun p => p.2.data_type = "binary").map (·.1)) }

/-- The per-row conversion loop of `CsvWriter.write_data`: complex
values are JSON-dumped in place, binary values are decoded
(`tryDecode`; a failed decode raises `InvalidDataItem`). Keys are
preserved, only values change. -/
def csvConvRow {ρ : Type} (jsonDump : ρ → ρ) (tryDecode : ρ → Option ρ)
    (ci bi : List String) (row : List (String × ρ)) : Except PyErr (List (String × ρ)) := do
  let row := ci.foldl
    (fun r k => match rowGet k r with
      | some v => rowSet k (jsonDump v) r
      | none => r) row
  bi.foldlM
    (fun r k => match rowGet k r with
      | some v =>
        match tryDecode v with
        | some d => .ok (rowSet k d r)
        | none => .error .invalidDataItem
      | none => .ok r) row

/-- Source `CsvWriter.write_data`: converts complex and binary cells when any
such column exists, hands the rows to `writer.writerows`, then
increments `items_count` by `sum(len(row) for row in rows)` (the number
of keys of each row dict, summed). Before `write_header` the
`complex_indices` attribute read and the `None.writerows` call raise. -/
def csvWriteData {ρ : Type} (jsonDump : ρ → ρ) (tryDecode : ρ → Option ρ)
    (rows : List (List (String × ρ))) (st : CsvState ρ) : Except PyErr (CsvState ρ) :=
  match st.complex_indices, st.bytes_indices with
  | some ci, some bi => do
    let rows ←
      if ci.isEmpty && bi.isEmpty then pure rows
      else rows.mapM (csvConvRow jsonDump tryDecode ci bi)
    match st.writer with
    | none => .error .attributeError
    | some _ =>
      .ok { st with
        written := st.written ++ rows,
        items_count := st.items_count + (rows.map List.length).sum }
  | _, _ => .error .attributeError

/-- A pyarrow schema as the writers observe it: one entry per field with
name, the arrow datatype derived from the column's `data_type`, and
nullability (`schema_item.get("nullable", True)`). -/
def pqSchemaOf (cols : TTableSchemaColumns) : List (String × String × Bool) :=
  cols.map fun p => (p.1, p.2.data_type, p.2.nullable.getD true)

/-- State of a `ParquetDataWriter`: item counter, `self.schema`,
`self.complex_indices` (`None` until `write_header`), `self.writer`
(the lazily built `ParquetWriter`, kept as the schema it was built
with) and the row batches handed to `writer.write_table`. -/
structure PqState (ρ : Type) where
  items_count : Nat
  schema : Option (List (String × String × Bool))
  complex_indices : Option (List String)
  writer : Option (List (String × String × Bool))
  written : List (List (List (String × ρ)))

/-- Source `ParquetDataWriter.write_header`: with no schema `None.items()`
raises; else builds the arrow schema, records the complex column names
and constructs the `ParquetWriter`. -/
def pqWriteHeader {ρ : Type} (columns_schema : Option TTableSchemaColumns)
    (st : PqState ρ) : Except PyErr (PqState ρ) :=
  match columns_schema with
  | none => .error .schemaRequired
  | some cols =>
    .ok { st with
      schema := some (pqSchemaOf cols),
      complex_indices := some ((cols.filter fun p => p.2.data_type = "complex").map (·.1)),
      writer := some (pqSchemaOf cols) }

/-- Source `ParquetDataWriter.write_data`: `super()` bumps the counter by the
row count, non-string complex values are JSON-dumped in place, then the
batch is turned into one arrow table and written (`writer.write_table`;
calling it before `write_header` raises on the `None` fields). -/
def pqWriteData {ρ : Type} (isStr : ρ → Bool) (jsonDump : ρ → ρ)
    (rows : List (List (String × ρ))) (st : PqState ρ) : Except PyErr (PqState ρ) :=
  let st := { st with items_count := st.items_count + rows.length }
  match st.complex_indices with
  | none => .error .typeError
  | some ci =>
    let rows := rows.map fun row =>
      ci.foldl
        (fun r k => match rowGet k r with
          | some v => if isStr v then r else rowSet k (jsonDump v) r
          | none => r) row
    match st.writer with
    | none => .error .attributeError
    | some _ => .ok { st with written := st.written ++ [rows] }

/-- A columnar batch (`pyarrow.Table` or `RecordBatch`): its schema
identity and its rows as `to_pylist()` would return them; `num_rows`
is the pyarrow row count. -/
structure ArrowBatch (ρ : Type) where
  schema : String
  pylist : List (List (String × ρ))

/-- Source `batch.num_rows`. -/
def ArrowBatch.num_rows {ρ : Type} (b : ArrowBatch ρ) : Nat := b.pylist.length

/-- State of an `ArrowToParquetWriter`: item counter, the stored column
schema from `write_header`, `self.writer` (`none` until the first batch
constructs it, then the schema it was built from) and the written
batches. -/
structure ArrowPqState (ρ : Type) where
  items_count : Nat
  column_schema : Option TTableSchemaColumns
  writer : Option String
  written : List (ArrowBatch ρ)

/-- Source `ArrowToParquetWriter.write_header`: only stores the column schema
(the file schema comes from the batches themselves). -/
def arrowPqWriteHeader {ρ : Type} (columns_schema : Option TTableSchemaColumns)
    (st : ArrowPqState ρ) : ArrowPqState ρ :=
  { st with column_schema := columns_schema }

/-- One iteration of `ArrowToParquetWriter.write_data`'s loop: construct
the writer from the first batch's schema if absent, write the batch,
and add `row.num_rows` to the counter. -/
def arrowPqStep {ρ : Type} (st : ArrowPqState ρ) (b : ArrowBatch ρ) : ArrowPqState ρ :=
  { st with
    writer := some (st.writer.getD b.schema),
    written := st.written ++ [b],
    items_count := st.items_count + b.num_rows }

/-- Source `ArrowToParquetWriter.write_data` over a sequence of batches. -/
def arrowPqWriteData {ρ : Type} (rows : List (ArrowBatch ρ)) (st : ArrowPqState ρ) :
    ArrowPqState ρ :=
  rows.foldl arrowPqStep st

/-- Source `ArrowToParquetWriter.write_footer`: raises `NotImplementedError`
when no writer was ever constructed (empty parquet files are
unsupported), else defers to the base `write_footer` (`pass`). -/
def arrowPqWriteFooter {ρ : Type} (st : ArrowPqState ρ) : Except PyErr (ArrowPqState ρ) :=
  if st.writer.isNone then .error .notImplementedError else .ok st

/-- State of an `ArrowToCsvWriter`: item counter, `self.writer` (`none`
until the first batch constructs the `pyarrow.csv.CSVWriter`),
`self._first_schema`, the stored column schema, and the written
batches. -/
structure ArrowCsvState (ρ : Type) where
  items_count : Nat
  writer : Option String
  first_schema : Option String
  columns_schema : Option TTableSchemaColumns
  written : List (ArrowBatch ρ)

/-- Source `ArrowToCsvWriter.write_header`: stores the column schema only. -/
def arrowCsvWriteHeader {ρ : Type} (columns_schema : Option TTableSchemaColumns)
    (st : ArrowCsvState ρ) : ArrowCsvState ρ :=
  { st with columns_schema := columns_schema }

/-- One iteration of `ArrowToCsvWriter.write_data`'s loop: construct the
csv writer from the first batch's schema, require every later batch's
schema to equal the first (else `InvalidDataItem`), write the batch and
add `row.num_rows` to the counter. -/
def arrowCsvStep {ρ : Type} (st : ArrowCsvState ρ) (b : ArrowBatch ρ) :
    Except PyErr (ArrowCsvState ρ) :=
  let st :=
    if st.writer.isNone then
      { st with writer := some b.schema, first_schema := some b.schema }
    else st
  if st.first_schema ≠ some b.schema then .error .invalidDataItem
  else
    .ok { st with
      written := st.written ++ [b],
      items_count := st.items_count + b.num_rows }

/-- Source `ArrowToCsvWriter.write_data` over a sequence of batches. -/
def arrowCsvWriteData {ρ : Type} (rows : List (ArrowBatch ρ)) (st : ArrowCsvState ρ) :
    Except PyErr (ArrowCsvState ρ) :=
  rows.foldlM arrowCsvStep st

/-- Source `ArrowToObjectAdapter.write_data` over a pure object writer: each
batch is converted with `to_pylist()` and forwarded to the wrapped
writer's `write_data`. -/
def arrowAdapterWriteData {ρ σ : Type} (objWrite : List (List (String × ρ)) → σ → σ)
    (batches : List (ArrowBatch ρ)) (s : σ) : σ :=
  batches.foldl (fun s b => objWrite b.pylist s) s

/-- Source `ArrowToObjectAdapter.write_data` over a raising object writer. -/
def arrowAdapterWriteDataM {ρ σ : Type}
    (objWrite : List (List (String × ρ)) → σ → Except PyErr σ)
    (batches : List (ArrowBatch ρ)) (s : σ) : Except PyErr σ :=
  batches.foldlM (fun s b => objWrite b.pylist s) s

/-- Source `ArrowToJsonlWriter.write_data` (adapter mixin over
`JsonlWriter.write_data`; rows inside a batch are dumped per line, so
the jsonl row encoding takes the whole row mapping). -/
def arrowToJsonlWriteData {ρ : Type} (dump : List (String × ρ) → String)
    (batches : List (ArrowBatch ρ)) (st : JsonlState) : JsonlState :=
  arrowAdapterWriteData (jsonlWriteData dump) batches st

/-- Source `ArrowToTypedJsonlListWriter.write_data` (adapter mixin over
`TypedJsonlListWriter.write_data`). -/
def arrowToTypedJsonlWriteData {ρ : Type} (dump : List (String × ρ) → String)
    (batches : List (ArrowBatch ρ)) (st : JsonlState) : JsonlState :=
  arrowAdapterWriteData (typedJsonlWriteData dump) batches st

/-- Source `ArrowToInsertValuesWriter.write_data` (adapter mixin over
`InsertValuesWriter.write_data`). -/
def arrowToInsertValuesWriteData {ρ : Type} (caps : InsertCaps ρ)
    (batches : List (ArrowBatch ρ)) (st : InsertState) : Except PyErr InsertState :=
  arrowAdapterWriteDataM (insertWriteData caps) batches st

/-- Default-dialect capabilities whose escape functions are the
identity (row values are taken as already-escaped SQL literals). -/
def idCaps : InsertCaps String := ⟨.default, id, id⟩

/-- A one-column schema named `c`. -/
def oneColSchema : TTableSchemaColumns := [("c", ⟨"text", none⟩)]

/-- A batch of single-column rows over the `c` column, one row per
value. -/
def oneColBatch (vs : List String) : List (List (String × String)) :=
  vs.map fun v => [("c", v)]

/-- The insert-values writer state right after writing the header for
the one-column schema in the default dialect. -/
def oneColHeaderState : InsertState :=
  ⟨0, 0, some ["c"], ["INSERT INTO \x7b\x7d(", "c", ")\n", "VALUES\n"]⟩

/-- C2: for every writer registered in the registry, looking its spec's
`data_item_format` and `file_format` back up with `get_best_writer_spec`
returns exactly that spec, for native and adapted entries alike. -/
theorem claim_C2_registry_round_trip :
    ∀ w : WriterType,
      get_best_writer_spec (writer_spec w).data_item_format (writer_spec w).file_format =
        .ok (writer_spec w) := by
  intro w
  cases w <;> rfl

/-- C8: `resolve_best_writer_spec` with a preferred format absent from
the candidate list raises `ValueError`, whatever the contents of the
native and full writer registries (so before any spec lookup). -/
theorem claim_C8_preferred_absent_value_error (item_format : TDataItemFormat)
    (possible : List TLoaderFileFormat) (p : TLoaderFileFormat)
    (native allw : List WriterType) (h : possible.contains p = false) :
    resolve_best_writer_spec_over item_format possible (some p) native allw =
      .error .valueError := by
  have h' : ¬ p ∈ possible := by simpa using h
  simp [resolve_best_writer_spec_over, h']

/-- Witness for C8 at a concrete input: an empty candidate list with a
preferred parquet format, over the real registry. -/
theorem claim_C8_witness :
    ([] : List TLoaderFileFormat).contains .parquet = false ∧
      resolve_best_writer_spec_over .arrow [] (some .parquet)
          (NATIVE_FORMAT_WRITERS .arrow) ALL_WRITERS = .error .valueError :=
  ⟨rfl, claim_C8_preferred_absent_value_error .arrow [] .parquet
    (NATIVE_FORMAT_WRITERS .arrow) ALL_WRITERS rfl⟩

/-- C7: `write_header` with no schema fails on the formats that mandate
one (insert-values writer on a fresh writer, object parquet writer),
and is a no-op for the jsonl writers, whose format embeds the schema
per record. -/
theorem claim_C7_schema_required :
    (∀ (ρ : Type) (caps : InsertCaps ρ) (n : Nat) (hl : Option (List String))
        (out : List String),
      insertWriteHeader caps none ⟨n, 0, hl, out⟩ = .error .schemaRequired) ∧
    (∀ (ρ : Type) (st : PqState ρ), pqWriteHeader none st = .error .schemaRequired) ∧
    (∀ (cols : Option TTableSchemaColumns) (st : JsonlState),
      jsonlWriteHeader cols st = st) ∧
    (∀ (cols : Option TTableSchemaColumns) (st : JsonlState),
      typedJsonlWriteHeader cols st = st) :=
  ⟨fun _ _ _ _ _ => rfl, fun _ _ => rfl, fun _ _ => rfl, fun _ _ => rfl⟩

/-- C5: the CSV writer's counter does not advance by the record count:
`write_data` with one row of two columns advances `items_count` by 2
(the sum of the rows' key counts), though one record was written. -/
theorem claim_C5_csv_counter_failing_input :
    (csvWriteData (ρ := String) id some [[("a", "1"), ("b", "2")]]
        ⟨0, some ["a", "b"], some [], some [], []⟩).map (·.items_count) = .ok 2 ∧
      ([[("a", "1"), ("b", "2")]] : List (List (String × String))).length = 1 :=
  ⟨rfl, rfl⟩

/-- Counterexample to C6: the typed-jsonl list writer's `write_data`
with an empty batch is not a no-op; it writes an empty JSON array line
to the sink. -/
theorem claim_C6_counterexample :
    typedJsonlWriteData (ρ := String) id [] ⟨0, []⟩ = ⟨0, ["[]", "\n"]⟩ ∧
      (⟨0, ["[]", "\n"]⟩ : JsonlState) ≠ ⟨0, []⟩ :=
  ⟨rfl, by decide⟩

/-- Once the arrow-to-parquet writer's encoder is constructed it stays
constructed through any further batches. -/
theorem arrowPq_writer_stays {ρ : Type} (batches : List (ArrowBatch ρ)) :
    ∀ (st : ArrowPqState ρ) (s : String), st.writer = some s →
      (arrowPqWriteData batches st).writer = some s := by
  induction batches with
  | nil => intro st s h; exact h
  | cons b rest ih =>
    intro st s h
    have : (arrowPqStep st b).writer = some s := by
      simp [arrowPqStep, h]
    exact ih (arrowPqStep st b) s this

/-- C6 (amended): an empty `write_data` leaves the item counter, chunk
counter and per-format state unchanged on every writer and writes
nothing on all of them except two: the typed-jsonl list writer emits an
empty JSON array line, and the object parquet writer hands an empty
table to its encoder. -/
theorem claim_C6_empty_write_data :
    (∀ (ρ : Type) (caps : InsertCaps ρ) (st : InsertState),
      insertWriteData caps [] st = .ok st) ∧
    (∀ (ρ : Type) (dump : ρ → String) (st : JsonlState),
      jsonlWriteData dump [] st = st) ∧
    (∀ (ρ : Type) (jd : ρ → ρ) (td : ρ → Option ρ) (n : Nat) (fns ci bi : List String)
        (wr : List (List (String × ρ))),
      csvWriteData jd td [] ⟨n, some fns, some ci, some bi, wr⟩ =
        .ok ⟨n, some fns, some ci, some bi, wr⟩) ∧
    (∀ (ρ : Type) (isStr : ρ → Bool) (jd : ρ → ρ) (n : Nat)
        (sch w : List (String × String × Bool)) (ci : List String)
        (wr : List (List (List (String × ρ)))),
      pqWriteData isStr jd [] ⟨n, some sch, some ci, some w, wr⟩ =
        .ok ⟨n, some sch, some ci, some w, wr ++ [[]]⟩) ∧
    (∀ (ρ : Type) (st : ArrowPqState ρ), arrowPqWriteData [] st = st) ∧
    (∀ (ρ : Type) (st : ArrowCsvState ρ), arrowCsvWriteData [] st = .ok st) ∧
    (∀ (ρ σ : Type) (f : List (List (String × ρ)) → σ → σ) (s : σ),
      arrowAdapterWriteData f [] s = s) ∧
    (∀ (ρ : Type) (dump : ρ → String) (st : JsonlState),
      typedJsonlWriteData dump [] st =
        { st with out := st.out ++ ["[]", "\n"] }) := by
  refine ⟨fun ρ caps st => rfl, fun ρ dump st => ?_, fun ρ jd td n fns ci bi wr => ?_,
    fun ρ isStr jd n sch w ci wr => rfl, fun ρ st => rfl, fun ρ st => rfl,
    fun ρ σ f s => rfl, fun ρ dump st => rfl⟩
  · simp [jsonlWriteData, jsonlPieces]
  · simp only [csvWriteData]
    split <;>
      simp [Bind.bind, Except.bind, List.mapM, List.mapM.loop, pure, Except.pure]

/-- C9: each adapter writer's spec equals the wrapped writer's spec with
only `data_item_format` overridden to arrow, and feeding an adapted
writer one columnar batch produces the same writer state (hence
byte-identical sink output) as feeding the wrapped writer the batch's
rows as row mappings. -/
theorem claim_C9_adapter_correctness :
    (writer_spec .arrowToJsonlWriter =
        { writer_spec .jsonlWriter with data_item_format := .arrow } ∧
      writer_spec .arrowToTypedJsonlListWriter =
        { writer_spec .typedJsonlListWriter with data_item_format := .arrow } ∧
      writer_spec .arrowToInsertValuesWriter =
        { writer_spec .insertValuesWriter with data_item_format := .arrow }) ∧
    (∀ (ρ : Type) (dump : List (String × ρ) → String) (b : ArrowBatch ρ)
        (st : JsonlState),
      arrowToJsonlWriteData dump [b] st = jsonlWriteData dump b.pylist st) ∧
    (∀ (ρ : Type) (dump : List (String × ρ) → String) (b : ArrowBatch ρ)
        (st : JsonlState),
      arrowToTypedJsonlWriteData dump [b] st = typedJsonlWriteData dump b.pylist st) ∧
    (∀ (ρ : Type) (caps : InsertCaps ρ) (b : ArrowBatch ρ) (st : InsertState),
      arrowToInsertValuesWriteData caps [b] st = insertWriteData caps b.pylist st) := by
  refine ⟨⟨rfl, rfl, rfl⟩, fun ρ dump b st => rfl, fun ρ dump b st => rfl,
    fun ρ caps b st => ?_⟩
  cases h : insertWriteData caps b.pylist st <;>
    simp [arrowToInsertValuesWriteData, arrowAdapterWriteDataM, List.foldlM, h]

/-- C10: the arrow-to-parquet writer's footer raises when no batch was
ever written (no encoder was constructed, whatever `write_header` was
given), and after at least one batch the footer succeeds and changes
nothing. -/
theorem claim_C10_arrow_parquet_footer :
    (∀ (ρ : Type) (n : Nat) (cs : Option TTableSchemaColumns) (w : List (ArrowBatch ρ)),
      arrowPqWriteFooter ⟨n, cs, none, w⟩ = .error .notImplementedError) ∧
    (∀ (ρ : Type) (b : ArrowBatch ρ) (batches : List (ArrowBatch ρ))
        (st : ArrowPqState ρ),
      arrowPqWriteFooter (arrowPqWriteData (b :: batches) st) =
        .ok (arrowPqWriteData (b :: batches) st)) := by
  refine ⟨fun ρ n cs w => rfl, fun ρ b batches st => ?_⟩
  have hw : (arrowPqWriteData (b :: batches) st).writer =
      some (st.writer.getD b.schema) := by
    have hstep : (arrowPqStep st b).writer = some (st.writer.getD b.schema) := rfl
    exact arrowPq_writer_stays batches (arrowPqStep st b) _ hstep
  simp [arrowPqWriteFooter, hw]

/-- The header dict lookup misses exactly when the name is not among the
headers. -/
theorem headerIndexAux_eq_none_iff (n : String) :
    ∀ (headers : List String) (i : Nat),
      headerIndexAux headers n i = none ↔ ¬ n ∈ headers := by
  intro headers
  induction headers with
  | nil => intro i; simp [headerIndexAux]
  | cons h t ih =>
    intro i
    simp only [headerIndexAux]
    cases haux : headerIndexAux t n (i + 1) with
    | some j =>
      have ht : n ∈ t := by
        by_contra hf
        rw [(ih (i + 1)).mpr hf] at haux
        cases haux
      simp [List.mem_cons, ht]
    | none =>
      have ht : ¬ n ∈ t := (ih (i + 1)).mp haux
      by_cases hhn : h = n
      · simp [hhn]
      · simp [if_neg hhn, List.mem_cons, ht, Ne.symm hhn]

/-- Source `write_row`'s fold over the row items: the result length is the
header count, keys outside the headers raise `KeyError` at the first
offending key. -/
theorem insertRowFold_spec {ρ : Type} (caps : InsertCaps ρ) (headers : List String) :
    ∀ (row : List (String × ρ)) (acc : List String),
      (insertRowFold caps headers row acc).map List.length =
        match row.find? (fun p => !(headers.contains p.1)) with
        | some p => .error (.keyError p.1)
        | none => .ok acc.length := by
  intro row
  induction row with
  | nil => intro acc; rfl
  | cons p rest ih =>
    intro acc
    cases hidx : headerIndex headers p.1 with
    | none =>
      have hmem : ¬ p.1 ∈ headers := (headerIndexAux_eq_none_iff p.1 headers 0).mp hidx
      rw [List.find?_cons_of_pos _ (by simp [hmem])]
      simp [insertRowFold, List.foldlM_cons, hidx, Bind.bind, Except.bind, Except.map]
    | some i =>
      have hmem : p.1 ∈ headers := by
        by_contra hf
        have : headerIndex headers p.1 = none :=
          (headerIndexAux_eq_none_iff p.1 headers 0).mpr hf
        rw [this] at hidx
        cases hidx
      rw [List.find?_cons_of_neg _ (by simp [hmem])]
      have hrec := ih (acc.set i (caps.escape_literal p.2))
      simp only [insertRowFold, List.foldlM_cons, hidx, Bind.bind, Except.bind]
      simp only [insertRowFold] at hrec
      rw [hrec, List.length_set]

/-- Counterexample to C4: the insert-values row encoding raises
`KeyError` on a row with a key outside the declared schema instead of
dropping it. -/
theorem claim_C4_counterexample :
    insertWriteData (ρ := String) ⟨.default, id, id⟩ [[("b", "1")]] ⟨0, 0, some ["a"], []⟩ =
      .error (.keyError "b") := rfl

/-- C4 (amended): row encoding builds a positional array of the
header's length with every slot defaulted to `NULL` and overwrites
slots by column-name lookup; rows whose keys all lie in the declared
schema succeed (missing slots stay `NULL`), and a key outside the
schema raises `KeyError` at the first such key. -/
theorem claim_C4_row_encoding :
    (∀ (ρ : Type) (caps : InsertCaps ρ) (headers : List String)
        (row : List (String × ρ)),
      (insertWriteRow caps headers row).map List.length =
        match row.find? (fun p => !(headers.contains p.1)) with
        | some p => .error (.keyError p.1)
        | none => .ok headers.length) ∧
    (∀ v : String,
      insertWriteRow idCaps ["a", "b", "c"] [("b", v)] = .ok ["NULL", v, "NULL"]) := by
  refine ⟨fun ρ caps headers row => ?_, fun v => rfl⟩
  have := insertRowFold_spec caps headers row (List.replicate headers.length "NULL")
  simpa [insertWriteRow, List.length_replicate] using this

/-- A single-column row encodes to its one escaped value. -/
theorem insertWriteRow_oneCol (v : String) :
    insertWriteRow idCaps ["c"] [("c", v)] = .ok [v] := rfl

/-- Encoding a whole single-column batch succeeds, one cell list per
value. -/
theorem insertRow_mapM_oneCol :
    ∀ vs : List String,
      (oneColBatch vs).mapM (insertWriteRow idCaps ["c"]) =
        .ok (vs.map fun v => [v]) := by
  intro vs
  induction vs with
  | nil => rfl
  | cons v rest ih =>
    have hcons : oneColBatch (v :: rest) = [("c", v)] :: oneColBatch rest := rfl
    rw [hcons, List.mapM_cons, insertWriteRow_oneCol, ih]
    rfl

/-- Source `write_data` on a single-column batch from any state holding the
one-column header succeeds, keeps the header, and bumps the chunk
counter exactly when the batch is non-empty. -/
theorem insertWriteData_oneCol (vs : List String) (st : InsertState)
    (h : st.headers_lookup = some ["c"]) :
    ∃ st', insertWriteData idCaps (oneColBatch vs) st = .ok st' ∧
      st'.headers_lookup = some ["c"] ∧
      st'.chunks_written = st.chunks_written + (if vs.isEmpty then 0 else 1) := by
  cases vs with
  | nil => exact ⟨st, rfl, h, by simp⟩
  | cons v rest =>
    obtain ⟨n, ch, hl, out⟩ := st
    simp only [InsertState.headers_lookup] at h
    subst h
    have hm := insertRow_mapM_oneCol (v :: rest)
    simp only [oneColBatch, List.map_cons] at hm
    simp only [insertWriteData, oneColBatch, List.map_cons, List.isEmpty_cons, hm,
      Bind.bind, Except.bind]
    exact ⟨_, rfl, rfl, by simp⟩

/-- Folding `write_data` over single-column batches: the run succeeds
and the chunk counter grows by the number of non-empty batches. -/
theorem insertFold_oneCol :
    ∀ (batches : List (List String)) (st : InsertState),
      st.headers_lookup = some ["c"] →
        ∃ st',
          (batches.map oneColBatch).foldlM
              (fun s b => insertWriteData idCaps b s) st = .ok st' ∧
            st'.headers_lookup = some ["c"] ∧
            st'.chunks_written =
              st.chunks_written + batches.countP (fun b => !b.isEmpty) := by
  intro batches
  induction batches with
  | nil => intro st h; exact ⟨st, rfl, h, by simp⟩
  | cons vs rest ih =>
    intro st h
    obtain ⟨st1, hd1, hh1, hc1⟩ := insertWriteData_oneCol vs st h
    obtain ⟨st2, hd2, hh2, hc2⟩ := ih st1 hh1
    refine ⟨st2, ?_, hh2, ?_⟩
    · simp only [List.map_cons, List.foldlM_cons, hd1, Bind.bind, Except.bind, hd2]
    · rw [hc2, hc1, List.countP_cons]
      cases hvs : vs.isEmpty <;> simp [hvs]
      all_goals omega

/-- C3: in the default dialect, two `write_data` calls of 2 and 1 rows
produce `(r1),\n(r2),\n(r3);` framed by exactly one header with no
extra separator at the chunk join; a run with zero rows keeps the bare
header with no semicolon; and in general the footer appends the
terminating `;` exactly when some non-empty batch was written. -/
theorem claim_C3_insert_values_chunks :
    (insertRunBody idCaps (some oneColSchema)
        [oneColBatch ["r1", "r2"], oneColBatch ["r3"]]).map
        (fun st => String.join (insertWriteFooter st).out) =
      .ok "INSERT INTO \x7b\x7d(c)\nVALUES\n(r1),\n(r2),\n(r3);" ∧
    (insertRunBody idCaps (some oneColSchema) []).map
        (fun st => String.join (insertWriteFooter st).out) =
      .ok "INSERT INTO \x7b\x7d(c)\nVALUES\n" ∧
    ∀ batches : List (List String),
      ∃ st',
        insertRunBody idCaps (some oneColSchema) (batches.map oneColBatch) = .ok st' ∧
          ((insertWriteFooter st').out = st'.out ++ [";"] ↔ ∃ b ∈ batches, b ≠ []) := by
  refine ⟨rfl, rfl, fun batches => ?_⟩
  have hhdr : insertWriteHeader idCaps (some oneColSchema) insertInit =
      .ok oneColHeaderState := rfl
  obtain ⟨st', hfold, hhl, hch⟩ :=
    insertFold_oneCol batches oneColHeaderState rfl
  refine ⟨st', ?_, ?_⟩
  · simp only [insertRunBody, hhdr, Bind.bind, Except.bind, hfold]
  · have hch0 : st'.chunks_written = batches.countP (fun b => !b.isEmpty) := by
      simpa [oneColHeaderState] using hch
    by_cases hpos : 0 < batches.countP (fun b => !b.isEmpty)
    · have hgt : 0 < st'.chunks_written := by omega
      have hfoot : (insertWriteFooter st').out = st'.out ++ [";"] := by
        simp [insertWriteFooter, hgt]
      obtain ⟨b, hb, hpb⟩ := List.countP_pos_iff.mp hpos
      have hbne : b ≠ [] := by
        simpa [List.isEmpty_iff] using hpb
      simp [hfoot, hbne]
      exact ⟨b, hb, hbne⟩
    · have hz : st'.chunks_written = 0 := by omega
      have hfoot : insertWriteFooter st' = st' := by
        simp [insertWriteFooter, hz]
      rw [hfoot]
      constructor
      · intro habs
        have := congrArg List.length habs
        simp at this
      · rintro ⟨b, hb, hbne⟩
        exfalso
        have : 0 < batches.countP (fun b => !b.isEmpty) :=
          List.countP_pos_iff.mpr ⟨b, hb, by simpa [List.isEmpty_iff] using hbne⟩
        omega

/-- C1: whenever the preferred format, if given, lies in the candidate
list, `resolve_best_writer_spec` is exactly the four-tier
short-circuiting search — native writer for the preferred format,
native writer for the remaining candidates in order, any writer for the
preferred format, any writer for the remaining candidates in order —
and raises `SpecLookupFailed` precisely when all four tiers exhaust. -/
theorem claim_C1_resolver_four_tiers (item_format : TDataItemFormat)
    (possible : List TLoaderFileFormat) (preferred : Option TLoaderFileFormat)
    (h : ∀ p, preferred = some p → p ∈ possible) :
    resolve_best_writer_spec item_format possible preferred =
      match fourTierSearch item_format possible preferred with
      | some s => .ok s
      | none => .error .specLookupFailed := by
  cases preferred with
  | none =>
    simp only [resolve_best_writer_spec, resolve_best_writer_spec_over, fourTierSearch,
      Option.bind, resolveTail]
    cases h1 : scan_formats possible none item_format (NATIVE_FORMAT_WRITERS item_format) with
    | some s => simp [h1]
    | none =>
      cases h2 : scan_formats possible none item_format ALL_WRITERS with
      | some s => simp [h1, h2]
      | none => simp [h1, h2]
  | some p =>
    have hp : p ∈ possible := h p rfl
    have hpc : possible.contains p = true := by simpa using hp
    simp only [resolve_best_writer_spec, resolve_best_writer_spec_over, hpc, if_true]
    cases h1 : class_factory p item_format (NATIVE_FORMAT_WRITERS item_format) with
    | some w => simp [fourTierSearch, Option.bind, h1]
    | none =>
      simp only [fourTierSearch, Option.bind, h1, Option.map_none, resolveTail]
      cases h2 : scan_formats possible (some p) item_format
          (NATIVE_FORMAT_WRITERS item_format) with
      | some s => simp [h2]
      | none =>
        cases h3 : class_factory p item_format ALL_WRITERS with
        | some w => simp [h2, h3]
        | none =>
          cases h4 : scan_formats possible (some p) item_format ALL_WRITERS with
          | some s => simp [h2, h3, h4]
          | none => simp [h2, h3, h4]

/-- Witness for C1 at a concrete input: object items, candidate list
`[jsonl]` with jsonl preferred. -/
theorem claim_C1_witness :
    resolve_best_writer_spec .object [.jsonl] (some .jsonl) =
      match fourTierSearch .object [.jsonl] (some .jsonl) with
      | some s => .ok s
      | none => .error .specLookupFailed :=
  claim_C1_resolver_four_tiers .object [.jsonl] (some .jsonl)
    (by intro p hp; cases hp; exact List.mem_singleton.mpr rfl)

end DltWriters
